import Mathlib

/-!
Shallow embedding of src/ago.c, a fixed-capacity worker-thread pool
("lightweight goroutine-like threads for C").

Modelling conventions:

* The C globals (ago.c lines 43-68) are gathered into the structure
  AgoState.  C int variables become Int; the semaphore count becomes Nat
  (sem_t is a non-negative count).  None of the quantities involved in the
  claims can approach 2^31, so no wrap-around modelling is needed.
* The fixed C arrays thread_list, func_list and arg_list are modelled as
  total functions Nat -> Nat (pthread_t handles, function pointers and
  context pointers are opaque and represented by Nat identifiers).  The C
  arrays have MAX_THREADS = 1024 cells, so a write at an index i with
  1024 <= i is an out-of-bounds access of the C program; the model records
  the write and the bound is checked in the theorems.
* The globals free_thread and nfree_thread (ago.c lines 52-53) are declared
  in the C file but never read or written by any function, so they are
  omitted from the state.
* Creation and destruction of the OS resources (the semaphore, the two
  mutexes, the condition variable) is tracked with _valid booleans, so
  that the release obligations of Shutdown can be stated.
* Fallible OS primitives (sem_init, pthread_mutex_init, pthread_cond_init,
  pthread_create, sem_getvalue, sem_post, pthread_join, sem_destroy,
  pthread_mutex_destroy, pthread_cond_destroy) are modelled by an
  environment OSEnv that says which calls succeed; the library code is a
  deterministic function of the environment, mirroring the C control flow
  line by line.
* Each API function (alib_thread_init, alib_go, alib_thread_end) is
  embedded as the state transformer of the calling thread, returning the
  C return value and the updated global state.  The worker loop body
  (thread_idle) is embedded separately as a transition, and the blocking
  behaviour of alib_thread_wait is analysed with a small transition system
  (WStep below): pthread_cond_wait returns only when some thread signals
  idle_condition, and the only signal in the program is sent by a worker
  whose decrement makes nrunning zero (ago.c line 107).
-/

/-- MAX_THREADS, ago.c line 40: absolute maximum number of threads, and the
size of the arrays thread_list, func_list, arg_list. -/
def MAX_THREADS : Int := 1024

/-- The global mutable state of ago.c (lines 43-68). -/
structure AgoState where
  /-- ago.c line 43: number of currently-running threads. -/
  nthreads : Int
  /-- ago.c line 46: the quit message. -/
  alib_thread_quit : Int
  /-- ago.c line 49: list of thread pointers (array of MAX_THREADS cells). -/
  thread_list : Nat → Nat
  /-- ago.c line 57: stack of function pointers (array of MAX_THREADS cells). -/
  func_list : Nat → Nat
  /-- ago.c line 58: stack of function arguments (array of MAX_THREADS cells). -/
  arg_list : Nat → Nat
  /-- ago.c line 60: number of entries on the function stack. -/
  nfuncs : Int
  /-- ago.c line 63: the value of the counting semaphore sem. -/
  sem : Nat
  /-- ago.c line 66: number of running (dispatched, unfinished) functions. -/
  nrunning : Int
  /-- Whether sem currently exists (sem_init done, sem_destroy not done). -/
  sem_valid : Bool
  /-- Whether func_mutex currently exists. -/
  func_mutex_valid : Bool
  /-- Whether nrunning_mutex currently exists. -/
  nrunning_mutex_valid : Bool
  /-- Whether idle_condition currently exists. -/
  cond_valid : Bool

/-- Outcomes of the fallible OS primitives, one field per call site.
A true value means the call succeeds (returns 0 in C). -/
structure OSEnv where
  /-- sem_init(&sem,0,0), ago.c line 134. -/
  sem_init_ok : Bool
  /-- pthread_mutex_init(&func_mutex,NULL), ago.c line 137. -/
  func_mutex_init_ok : Bool
  /-- pthread_mutex_init(&nrunning_mutex,NULL), ago.c line 140. -/
  nrunning_mutex_init_ok : Bool
  /-- pthread_cond_init(&idle_condition,NULL), ago.c line 141. -/
  cond_init_ok : Bool
  /-- pthread_create(thread_list+i,...), ago.c line 145, at loop index i. -/
  create_ok : Nat → Bool
  /-- The pthread_t handle stored by a successful pthread_create at index i. -/
  newThread : Nat → Nat
  /-- sem_getvalue(&sem,&sval), ago.c line 155. -/
  sem_getvalue_ok : Bool
  /-- sem_post(&sem) in alib_go, ago.c line 234. -/
  sem_post_ok : Bool
  /-- sem_post(&sem) in alib_thread_end, ago.c line 188, at loop index i. -/
  end_post_ok : Nat → Bool
  /-- pthread_join(thread_list[i],NULL), ago.c line 193, at loop index i. -/
  join_ok : Nat → Bool
  /-- sem_destroy(&sem), ago.c line 198. -/
  sem_destroy_ok : Bool
  /-- pthread_mutex_destroy(&nrunning_mutex), ago.c line 199. -/
  nrunning_mutex_destroy_ok : Bool
  /-- pthread_cond_destroy(&idle_condition), ago.c line 200. -/
  cond_destroy_ok : Bool

/-- The state at program start: every C global is zero-initialized
(ago.c lines 43-68), and no OS resource exists yet. -/
def initialState : AgoState where
  nthreads := 0
  alib_thread_quit := 0
  thread_list := fun _ => 0
  func_list := fun _ => 0
  arg_list := fun _ => 0
  nfuncs := 0
  sem := 0
  nrunning := 0
  sem_valid := false
  func_mutex_valid := false
  nrunning_mutex_valid := false
  cond_valid := false

/-- The environment in which every OS primitive succeeds; a thread created
at loop index i gets the (arbitrary, nonzero) handle i + 1. -/
def envOk : OSEnv where
  sem_init_ok := true
  func_mutex_init_ok := true
  nrunning_mutex_init_ok := true
  cond_init_ok := true
  create_ok := fun _ => true
  newThread := fun i => i + 1
  sem_getvalue_ok := true
  sem_post_ok := true
  end_post_ok := fun _ => true
  join_ok := fun _ => true
  sem_destroy_ok := true
  nrunning_mutex_destroy_ok := true
  cond_destroy_ok := true

/-- The environment in which only sem_init fails (gate-creation failure). -/
def envSemFail : OSEnv :=
  { envOk with sem_init_ok := false }

/-- The thread-creation loop of alib_thread_init (ago.c lines 143-150):
for(i=0; i<max_conc; i++) \x7b if(pthread_create(thread_list+i,...)) return -6;
nthreads++; \x7d.  fuel is the number of remaining iterations (initially
max_conc), i the current loop index. -/
def initLoop (env : OSEnv) : Nat → Nat → AgoState → Int × AgoState
  | 0, _, s => (0, s)
  | fuel + 1, i, s =>
    if env.create_ok i then
      initLoop env fuel (i + 1)
        { s with thread_list := Function.update s.thread_list i (env.newThread i),
                 nthreads := s.nthreads + 1 }
    else (-6, s)

/-- alib_thread_init (ago.c lines 122-161), embedded line by line:
sets alib_thread_quit to 0 first (line 128), then fails with -1 if
nthreads is nonzero (line 131) or sem_init fails (line 134), with -3, -4
and -5 on mutex and condition-variable creation failure (lines 137-141), runs the creation loop
(lines 143-150, -6 on failure), then polls sem_getvalue (lines 154-158,
-7 on failure; the semaphore value is 0 here, so the poll exits at once)
and returns 0 (line 160). -/
def alib_thread_init (env : OSEnv) (max_conc : Int) (s0 : AgoState) :
    Int × AgoState :=
  let s := { s0 with alib_thread_quit := 0 }
  if s.nthreads ≠ 0 then (-1, s)
  else if ¬ env.sem_init_ok then (-1, s)
  else
    let s := { s with sem := 0, sem_valid := true }
    if ¬ env.func_mutex_init_ok then (-3, s)
    else
      let s := { s with func_mutex_valid := true }
      if ¬ env.nrunning_mutex_init_ok then (-4, s)
      else
        let s := { s with nrunning_mutex_valid := true }
        if ¬ env.cond_init_ok then (-5, s)
        else
          let s := { s with cond_valid := true }
          let r := initLoop env max_conc.toNat 0 s
          if r.1 ≠ 0 then r
          else if ¬ env.sem_getvalue_ok then (-7, r.2)
          else (0, r.2)

/-- alib_go (ago.c lines 209-237), embedded line by line: returns 1 if
nthreads is 0 (line 212), 2 if nfuncs equals MAX_THREADS (line 215);
otherwise pushes (func, arg) at index nfuncs and increments nfuncs under
func_mutex (lines 218-222), increments nrunning under nrunning_mutex
(lines 229-231), then posts the semaphore (line 234, 3 on failure) and
returns 0. -/
def alib_go (env : OSEnv) (func arg : Nat) (s0 : AgoState) : Int × AgoState :=
  if s0.nthreads = 0 then (1, s0)
  else if s0.nfuncs = MAX_THREADS then (2, s0)
  else
    let s := { s0 with
      func_list := Function.update s0.func_list s0.nfuncs.toNat func,
      arg_list := Function.update s0.arg_list s0.nfuncs.toNat arg,
      nfuncs := s0.nfuncs + 1 }
    let s := { s with nrunning := s.nrunning + 1 }
    if ¬ env.sem_post_ok then (3, s)
    else (0, { s with sem := s.sem + 1 })

/-- The wake-all loop of alib_thread_end (ago.c lines 187-189):
each successful sem_post increments the semaphore; a failure makes
alib_thread_end return 1. -/
def endPostLoop (env : OSEnv) : Nat → Nat → AgoState → Int × AgoState
  | 0, _, s => (0, s)
  | fuel + 1, i, s =>
    if env.end_post_ok i then
      endPostLoop env fuel (i + 1) { s with sem := s.sem + 1 }
    else (1, s)

/-- The join loop of alib_thread_end (ago.c lines 192-194): pthread_join
blocks but writes no pool state; a failure makes alib_thread_end return 2. -/
def endJoinLoop (env : OSEnv) : Nat → Nat → AgoState → Int × AgoState
  | 0, _, s => (0, s)
  | fuel + 1, i, s =>
    if env.join_ok i then endJoinLoop env fuel (i + 1) s
    else (2, s)

/-- alib_thread_end (ago.c lines 179-203), embedded as the state transformer
of the calling thread: sets alib_thread_quit to 1 (line 184), posts the
semaphore once per thread (lines 187-189, error 1), joins every thread
(lines 192-194, error 2), sets nrunning to 0 (line 197), then destroys the
semaphore, nrunning_mutex and idle_condition (lines 198-200, errors 3-5)
and returns 0.  Note that the C code neither resets nthreads nor destroys
func_mutex.  The quitting workers themselves only consume semaphore tokens
(ago.c lines 85-88) before exiting; the semaphore is destroyed immediately
afterwards, so that consumption is not modelled. -/
def alib_thread_end (env : OSEnv) (s0 : AgoState) : Int × AgoState :=
  let s := { s0 with alib_thread_quit := 1 }
  let r1 := endPostLoop env s.nthreads.toNat 0 s
  if r1.1 ≠ 0 then r1
  else
    let r2 := endJoinLoop env s.nthreads.toNat 0 r1.2
    if r2.1 ≠ 0 then r2
    else
      let s := { r2.2 with nrunning := 0 }
      if ¬ env.sem_destroy_ok then (3, s)
      else
        let s := { s with sem_valid := false }
        if ¬ env.nrunning_mutex_destroy_ok then (4, s)
        else
          let s := { s with nrunning_mutex_valid := false }
          if ¬ env.cond_destroy_ok then (5, s)
          else (0, { s with cond_valid := false })

/-- One full pass of a worker through the body of thread_idle
(ago.c lines 83-109), enabled when sem_wait can return, i.e. when the
semaphore count is positive: the wait consumes a token (line 85); if
alib_thread_quit is set the worker returns at once (line 88); otherwise it
pops the top of the function stack (lines 94-98), runs the function
(line 101; tasks are opaque to the pool, so the effects of the task body
are outside the model), then decrements nrunning and signals
idle_condition exactly when the new value is 0 (lines 105-108).
Returns the new pool state and whether idle_condition was signalled. -/
def thread_idle_step (s0 : AgoState) : AgoState × Bool :=
  let s := { s0 with sem := s0.sem - 1 }
  if s.alib_thread_quit ≠ 0 then (s, false)
  else
    let s := { s with nfuncs := s.nfuncs - 1 }
    let s := { s with nrunning := s.nrunning - 1 }
    (s, s.nrunning = 0)

/-- Configuration for analysing a blocked alib_thread_wait call
(ago.c lines 164-171): the pool state together with whether the waiting
thread has returned from pthread_cond_wait.  alib_thread_wait takes
nrunning_mutex and calls pthread_cond_wait with no surrounding predicate
check, so the call returns exactly when some thread signals
idle_condition; cond_wait releases the mutex while blocked, so the waiter
holds no lock that could impede the workers. -/
structure WaitScenario where
  pool : AgoState
  waiterDone : Bool

/-- The transition relation of the system while one thread is blocked
inside alib_thread_wait and no other thread calls into the library: the
only threads that can act are the workers of the pool, each of which can run
one pass of thread_idle when the semaphore count is positive; the signal
sent on the zero crossing of nrunning (ago.c line 107) is what wakes the
waiter. -/
inductive WStep : WaitScenario → WaitScenario → Prop
  | worker (w : WaitScenario) (h : 0 < w.pool.sem) :
      WStep w ⟨(thread_idle_step w.pool).1,
               w.waiterDone || (thread_idle_step w.pool).2⟩

/-- The configuration reached by Initialize(N) from the pristine state
with every OS call succeeding, followed immediately by WaitIdle: the
caller is now blocked in pthread_cond_wait and has not been woken. -/
def postInitWait (max_conc : Int) : WaitScenario :=
  ⟨(alib_thread_init envOk max_conc initialState).2, false⟩

/-- The pool state reached inside a successful alib_thread_init from the
pristine state just before the thread-creation loop: the shutdown flag is
cleared and all four OS resources have been created (ago.c lines 128-141). -/
def preLoopState : AgoState :=
  { initialState with
      sem := 0, sem_valid := true, func_mutex_valid := true,
      nrunning_mutex_valid := true, cond_valid := true }

/-- The creation loop touches only thread_list and nthreads. -/
lemma initLoop_only_threads (env : OSEnv) (fuel : Nat) :
    ∀ (i : Nat) (s : AgoState),
      (initLoop env fuel i s).2 =
        { s with thread_list := (initLoop env fuel i s).2.thread_list,
                 nthreads := (initLoop env fuel i s).2.nthreads } := by
  induction fuel with
  | zero => intro i s; rfl
  | succ n ih =>
    intro i s
    by_cases h : env.create_ok i
    · simp only [initLoop, h, if_true]
      exact ih (i + 1) _
    · simp [initLoop, h]

/-- When every pthread_create succeeds the creation loop reports success. -/
lemma initLoop_ok_fst (env : OSEnv) (hok : ∀ j, env.create_ok j = true)
    (fuel : Nat) : ∀ (i : Nat) (s : AgoState), (initLoop env fuel i s).1 = 0 := by
  induction fuel with
  | zero => intro i s; rfl
  | succ n ih =>
    intro i s
    simp only [initLoop, hok i, if_true]
    exact ih (i + 1) _

/-- When every pthread_create succeeds the loop increments nthreads once
per iteration. -/
lemma initLoop_ok_nthreads (env : OSEnv) (hok : ∀ j, env.create_ok j = true)
    (fuel : Nat) : ∀ (i : Nat) (s : AgoState),
      (initLoop env fuel i s).2.nthreads = s.nthreads + (fuel : Int) := by
  induction fuel with
  | zero => intro i s; simp [initLoop]
  | succ n ih =>
    intro i s
    simp only [initLoop, hok i, if_true]
    rw [ih (i + 1)]
    push_cast
    ring

/-- The creation loop never writes thread_list below its starting index. -/
lemma initLoop_thread_list_lo (env : OSEnv) (fuel : Nat) :
    ∀ (i : Nat) (s : AgoState) (j : Nat), j < i →
      (initLoop env fuel i s).2.thread_list j = s.thread_list j := by
  induction fuel with
  | zero => intro i s j _; rfl
  | succ n ih =>
    intro i s j hj
    by_cases h : env.create_ok i
    · simp only [initLoop, h, if_true]
      rw [ih (i + 1) _ j (by omega)]
      exact Function.update_noteq (by omega) _ _
    · simp [initLoop, h]

/-- When every pthread_create succeeds, iteration j of the creation loop
stores the new thread handle in cell j of thread_list. -/
lemma initLoop_ok_thread_list (env : OSEnv) (hok : ∀ j, env.create_ok j = true)
    (fuel : Nat) : ∀ (i : Nat) (s : AgoState) (j : Nat),
      i ≤ j → j < i + fuel →
      (initLoop env fuel i s).2.thread_list j = env.newThread j := by
  induction fuel with
  | zero => intro i s j h1 h2; omega
  | succ n ih =>
    intro i s j h1 h2
    rcases eq_or_lt_of_le h1 with rfl | hlt
    · simp only [initLoop, hok i, if_true]
      rw [initLoop_thread_list_lo env n (i + 1) _ i (by omega)]
      simp
    · simp only [initLoop, hok i, if_true]
      exact ih (i + 1) _ j (by omega) (by omega)

/-- The wake-all loop of alib_thread_end touches only the semaphore count. -/
lemma endPostLoop_only_sem (env : OSEnv) (fuel : Nat) :
    ∀ (i : Nat) (s : AgoState),
      (endPostLoop env fuel i s).2 =
        { s with sem := (endPostLoop env fuel i s).2.sem } := by
  induction fuel with
  | zero => intro i s; rfl
  | succ n ih =>
    intro i s
    by_cases h : env.end_post_ok i
    · simp only [endPostLoop, h, if_true]
      exact ih (i + 1) _
    · simp [endPostLoop, h]

/-- When every sem_post succeeds the wake-all loop reports success. -/
lemma endPostLoop_ok_fst (env : OSEnv) (hok : ∀ j, env.end_post_ok j = true)
    (fuel : Nat) : ∀ (i : Nat) (s : AgoState),
      (endPostLoop env fuel i s).1 = 0 := by
  induction fuel with
  | zero => intro i s; rfl
  | succ n ih =>
    intro i s
    simp only [endPostLoop, hok i, if_true]
    exact ih (i + 1) _

/-- The join loop of alib_thread_end does not change the pool state. -/
lemma endJoinLoop_state (env : OSEnv) (fuel : Nat) :
    ∀ (i : Nat) (s : AgoState), (endJoinLoop env fuel i s).2 = s := by
  induction fuel with
  | zero => intro i s; rfl
  | succ n ih =>
    intro i s
    by_cases h : env.join_ok i
    · simp only [endJoinLoop, h, if_true]
      exact ih (i + 1) _
    · simp [endJoinLoop, h]

/-- When every pthread_join succeeds the join loop reports success. -/
lemma endJoinLoop_ok_fst (env : OSEnv) (hok : ∀ j, env.join_ok j = true)
    (fuel : Nat) : ∀ (i : Nat) (s : AgoState),
      (endJoinLoop env fuel i s).1 = 0 := by
  induction fuel with
  | zero => intro i s; rfl
  | succ n ih =>
    intro i s
    simp only [endJoinLoop, hok i, if_true]
    exact ih (i + 1) _

/-- With every OS call succeeding, alib_thread_init from the pristine state
returns 0 and the state produced by the creation loop from preLoopState. -/
lemma alib_thread_init_envOk_eq (m : Int) :
    alib_thread_init envOk m initialState =
      (0, (initLoop envOk m.toNat 0 preLoopState).2) := by
  have h0 : (initLoop envOk m.toNat 0 preLoopState).1 = 0 :=
    initLoop_ok_fst envOk (fun _ => rfl) _ _ _
  show (if (initLoop envOk m.toNat 0 preLoopState).1 ≠ 0
        then initLoop envOk m.toNat 0 preLoopState
        else if ¬ envOk.sem_getvalue_ok
             then (-7, (initLoop envOk m.toNat 0 preLoopState).2)
             else (0, (initLoop envOk m.toNat 0 preLoopState).2)) =
       (0, (initLoop envOk m.toNat 0 preLoopState).2)
  rw [if_neg (by simp [h0]), if_neg (by decide)]

/-- A successful alib_thread_init from the pristine state differs from
preLoopState only in thread_list and nthreads. -/
lemma alib_thread_init_envOk_snd (m : Int) :
    (alib_thread_init envOk m initialState).2 =
      { preLoopState with
          thread_list := (initLoop envOk m.toNat 0 preLoopState).2.thread_list,
          nthreads := (initLoop envOk m.toNat 0 preLoopState).2.nthreads } := by
  rw [alib_thread_init_envOk_eq]
  exact initLoop_only_threads envOk m.toNat 0 preLoopState

/-- A successful alib_thread_init from the pristine state sets nthreads to
the number of loop iterations, max_conc (clamped to 0 below). -/
lemma alib_thread_init_envOk_nthreads (m : Int) :
    (alib_thread_init envOk m initialState).2.nthreads = (m.toNat : Int) := by
  rw [alib_thread_init_envOk_eq]
  have h := initLoop_ok_nthreads envOk (fun _ => rfl) m.toNat 0 preLoopState
  simpa [preLoopState, initialState] using h

/-- Helper for C1: the configuration reached by a successful Initialize(N)
from the pristine state followed by WaitIdle has semaphore count 0, so no
worker can pass sem_wait, no transition is enabled at all, and the only
reachable configuration is the starting one. -/
lemma wstep_reach_postInitWait (m : Int) :
    ∀ w, Relation.ReflTransGen WStep (postInitWait m) w → w = postInitWait m := by
  have hsem : (postInitWait m).pool.sem = 0 := by
    show (alib_thread_init envOk m initialState).2.sem = 0
    rw [alib_thread_init_envOk_snd m]
    rfl
  intro w h
  induction h with
  | refl => rfl
  | tail _ hbc ih =>
    rw [ih] at hbc
    cases hbc with
    | worker hpos => rw [hsem] at hpos; exact absurd hpos (by omega)

/-- C1: the claim says Initialize(N) followed immediately by WaitIdle
returns, and that WaitIdle returns whenever the running count is or
becomes zero.  The code disagrees: alib_thread_wait (ago.c lines 164-171)
calls pthread_cond_wait with no check of nrunning, so it returns only
when a worker signals idle_condition, which happens only when a worker
decrement makes nrunning zero (ago.c line 107).  After Initialize(N) with
no Submit, the semaphore count is 0, every worker is blocked in sem_wait,
and nrunning is already 0, so no signal is ever sent: in every
configuration reachable from the post-Initialize configuration, in any
interleaving and for every N, the waiter is still blocked.  WaitIdle
blocks indefinitely exactly where the claim says it must return. -/
theorem c1_wait_after_init_never_returns (m : Int) (w : WaitScenario)
    (h : Relation.ReflTransGen WStep (postInitWait m) w) :
    w.waiterDone = false := by
  rw [wstep_reach_postInitWait m w h]
  rfl

/-- Witness for C1 at N = 4 and the empty transition sequence. -/
theorem c1_wait_after_init_never_returns_witness :
    (postInitWait 4).waiterDone = false :=
  c1_wait_after_init_never_returns 4 (postInitWait 4) Relation.ReflTransGen.refl

/-- C2: the claim says that after a successful Shutdown a subsequent Submit
fails with NotInitialized (code 1) and a subsequent Initialize succeeds.
The code disagrees, because alib_thread_end (ago.c lines 179-203) never
resets nthreads: concretely, after Initialize(1) and a successful
Shutdown, a Submit passes the nthreads test (ago.c line 212) and returns
0 - pushing a task onto the stack of a torn-down pool - and a subsequent
Initialize(2) fails with -1 at the nthreads test of ago.c line 131.  This
contradicts the comments of the code itself (ago.c lines 175-176: subsequent
calls to alib_go will fail; can restart again with alib_thread_init). -/
theorem c2_shutdown_not_restartable :
    (alib_thread_end envOk (alib_thread_init envOk 1 initialState).2).1 = 0 ∧
    (alib_go envOk 7 8
        (alib_thread_end envOk (alib_thread_init envOk 1 initialState).2).2).1
      = 0 ∧
    (alib_thread_init envOk 2
        (alib_thread_end envOk (alib_thread_init envOk 1 initialState).2).2).1
      = -1 := by
  decide

/-- Counterexample for C3: with Initialize(1), the capacity N of the claim
is 1, yet after one pending task (nfuncs = 1 = N, with the worker not yet
scheduled, so nothing has been claimed) a second alib_go does not fail
with the Saturated error 2 - it succeeds, and the pending collection
grows to 2 entries, more than N.  The code (ago.c line 215) compares
nfuncs against the constant MAX_THREADS, not against the max_conc that
was passed to alib_thread_init (which the code does not even store). -/
theorem c3_counterexample_pending_exceeds_n :
    (alib_go envOk 11 21
        (alib_go envOk 10 20 (alib_thread_init envOk 1 initialState).2).2).1
      = 0 ∧
    (alib_go envOk 11 21
        (alib_go envOk 10 20 (alib_thread_init envOk 1 initialState).2).2).2.nfuncs
      = 2 := by
  decide

/-- C3 as amended: alib_go fails with the Saturated error 2 exactly when
the pool is initialized and the pending collection already holds
MAX_THREADS = 1024 entries - the constant bound, independent of the value
passed to Initialize - and consequently the pending collection never
grows beyond MAX_THREADS entries. -/
theorem c3_saturated_iff_nfuncs_max_threads (env : OSEnv) (f a : Nat)
    (s : AgoState) (h : s.nfuncs ≤ MAX_THREADS) :
    ((alib_go env f a s).1 = 2 ↔ s.nthreads ≠ 0 ∧ s.nfuncs = MAX_THREADS) ∧
    (alib_go env f a s).2.nfuncs ≤ MAX_THREADS := by
  by_cases h1 : s.nthreads = 0
  · constructor
    · simp [alib_go, h1]
    · simpa [alib_go, h1] using h
  · by_cases h2 : s.nfuncs = MAX_THREADS
    · constructor
      · simp [alib_go, h1, h2]
      · simp [alib_go, h1, h2]
    · have hlt : s.nfuncs + 1 ≤ MAX_THREADS := by
        have : MAX_THREADS = 1024 := rfl
        omega
      by_cases h3 : env.sem_post_ok
      · constructor
        · simp [alib_go, h1, h2, h3]
        · simpa [alib_go, h1, h2, h3] using hlt
      · constructor
        · simp [alib_go, h1, h2, h3]
        · simpa [alib_go, h1, h2, h3] using hlt

/-- Witness for C3 as amended, at the state left by Initialize(1). -/
theorem c3_saturated_iff_nfuncs_max_threads_witness :
    (((alib_go envOk 10 20 (alib_thread_init envOk 1 initialState).2).1 = 2 ↔
        (alib_thread_init envOk 1 initialState).2.nthreads ≠ 0 ∧
        (alib_thread_init envOk 1 initialState).2.nfuncs = MAX_THREADS) ∧
      (alib_go envOk 10 20 (alib_thread_init envOk 1 initialState).2).2.nfuncs
        ≤ MAX_THREADS) :=
  c3_saturated_iff_nfuncs_max_threads envOk 10 20
    (alib_thread_init envOk 1 initialState).2 (by decide)

/-- C4: the claim says a successful Initialize(maxConcurrency) returns the
number of workers created, maxConcurrency.  The code does create
max_conc workers, but then returns 0 unconditionally (ago.c line 160),
for every max_conc with 1 <= max_conc - contradicting both the claim and
the doc comment of the function itself (ago.c line 116: Return value: number of
actual threads created).  The failure codes of the four failure classes
(-1 gate creation, -3 and -4 lock creation, -5 signal creation, -6 worker
spawn) are pairwise distinct as the claim says; the broken half of the
claim is the success return value. -/
theorem c4_init_returns_zero_not_thread_count (m : Int) (h : 1 ≤ m) :
    (alib_thread_init envOk m initialState).1 = 0 ∧
    (alib_thread_init envOk m initialState).2.nthreads = m ∧
    (alib_thread_init envOk m initialState).1 ≠ m := by
  have h1 : (alib_thread_init envOk m initialState).1 = 0 := by
    rw [alib_thread_init_envOk_eq]
  have h2 : (alib_thread_init envOk m initialState).2.nthreads = m := by
    rw [alib_thread_init_envOk_nthreads]
    omega
  exact ⟨h1, h2, by rw [h1]; omega⟩

/-- Witness for C4 at max_conc = 1. -/
theorem c4_init_returns_zero_not_thread_count_witness :
    (alib_thread_init envOk 1 initialState).1 = 0 ∧
    (alib_thread_init envOk 1 initialState).2.nthreads = 1 ∧
    (alib_thread_init envOk 1 initialState).1 ≠ 1 :=
  c4_init_returns_zero_not_thread_count 1 (by decide)

/-- Counterexample for C5: the state reached by Initialize(1) followed by a
successful Shutdown still has nthreads = 1 (alib_thread_end never resets
it) and has the shutdown flag set to 1.  Calling Initialize again on that
state does fail fast with -1, but (a) it first resets the shutdown flag
to 0 (ago.c line 128 runs before the line 131 check), a side effect the
claim rules out, and (b) -1 is exactly the error code of a gate-creation
(sem_init) failure from the uninitialized state (ago.c line 134), so the
code is not distinct from every resource-creation error code. -/
theorem c5_counterexample_reinit_side_effect :
    (alib_thread_end envOk (alib_thread_init envOk 1 initialState).2).2.alib_thread_quit
      = 1 ∧
    (alib_thread_init envOk 1
        (alib_thread_end envOk (alib_thread_init envOk 1 initialState).2).2).1
      = -1 ∧
    (alib_thread_init envOk 1
        (alib_thread_end envOk (alib_thread_init envOk 1 initialState).2).2).2.alib_thread_quit
      = 0 ∧
    (alib_thread_init envSemFail 1 initialState).1 = -1 := by
  decide

/-- C5 as amended: calling Initialize while the pool is initialized
(nthreads nonzero) fails fast with -1 - a code it shares with the
gate-creation failure, so not distinct from every resource-creation
code - and leaves every piece of pool state unchanged except the
shutdown flag, which it resets to 0 before the check. -/
theorem c5_reinit_fails_fast_resets_quit_flag (env : OSEnv) (m : Int)
    (s : AgoState) (h : s.nthreads ≠ 0) :
    alib_thread_init env m s = (-1, { s with alib_thread_quit := 0 }) ∧
    (alib_thread_init envSemFail 1 initialState).1 = -1 := by
  constructor
  · simp [alib_thread_init, h]
  · decide

/-- Witness for C5 as amended, at the state left by Initialize(1). -/
theorem c5_reinit_fails_fast_resets_quit_flag_witness :
    alib_thread_init envOk 3 (alib_thread_init envOk 1 initialState).2 =
      (-1, { (alib_thread_init envOk 1 initialState).2 with
               alib_thread_quit := 0 }) ∧
    (alib_thread_init envSemFail 1 initialState).1 = -1 :=
  c5_reinit_fails_fast_resets_quit_flag envOk 3
    (alib_thread_init envOk 1 initialState).2 (by decide)

/-- C6: when alib_go reports success, the increment of nrunning has already
been performed inside alib_go itself (ago.c lines 229-231, under
nrunning_mutex), before the return at line 236: the state returned by a
successful alib_go carries nrunning = old nrunning + 1.  The worker
(thread_idle) only ever decrements nrunning (ago.c line 106), so the
increment is not deferred to the worker. -/
theorem c6_nrunning_incremented_inside_go (env : OSEnv) (f a : Nat)
    (s : AgoState) (h : (alib_go env f a s).1 = 0) :
    (alib_go env f a s).2.nrunning = s.nrunning + 1 := by
  by_cases h1 : s.nthreads = 0
  · simp [alib_go, h1] at h
  · by_cases h2 : s.nfuncs = MAX_THREADS
    · simp [alib_go, h1, h2] at h
    · by_cases h3 : env.sem_post_ok
      · simp [alib_go, h1, h2, h3]
      · simp [alib_go, h1, h2, h3] at h

/-- Witness for C6 at the state left by Initialize(1). -/
theorem c6_nrunning_incremented_inside_go_witness :
    (alib_go envOk 3 4 (alib_thread_init envOk 1 initialState).2).2.nrunning =
      (alib_thread_init envOk 1 initialState).2.nrunning + 1 :=
  c6_nrunning_incremented_inside_go envOk 3 4
    (alib_thread_init envOk 1 initialState).2 (by decide)

/-- A successful alib_thread_end changes the state as follows: the shutdown
flag is set, the semaphore count is whatever the wake-all loop left (the
semaphore is destroyed anyway), nrunning is reset to 0, and the
semaphore, nrunning_mutex and idle_condition are destroyed; everything
else, including nthreads and func_mutex, is untouched. -/
lemma alib_thread_end_success (env : OSEnv) (s : AgoState)
    (h : (alib_thread_end env s).1 = 0) :
    (alib_thread_end env s).2 =
      { s with alib_thread_quit := 1,
               sem := (alib_thread_end env s).2.sem,
               nrunning := 0,
               sem_valid := false,
               nrunning_mutex_valid := false,
               cond_valid := false } := by
  simp only [alib_thread_end] at h ⊢
  split_ifs at h ⊢ with hA hB hC hD hE <;>
    first
      | exact absurd h hA
      | exact absurd h hB
      | (simp at h; done)
      | (rw [endJoinLoop_state, endPostLoop_only_sem]; try simp)

/-- Counterexample for C7: after Initialize(1), func_mutex exists; a
successful Shutdown returns 0 but leaves func_mutex in existence -
alib_thread_end destroys only the semaphore, nrunning_mutex and
idle_condition (ago.c lines 198-200) and never calls
pthread_mutex_destroy on func_mutex, so the pending-collection lock is
not released as the claim requires. -/
theorem c7_counterexample_func_mutex_not_destroyed :
    (alib_thread_end envOk (alib_thread_init envOk 1 initialState).2).1 = 0 ∧
    (alib_thread_init envOk 1 initialState).2.func_mutex_valid = true ∧
    (alib_thread_end envOk
        (alib_thread_init envOk 1 initialState).2).2.func_mutex_valid
      = true := by
  decide

/-- C7 as amended: a successful Shutdown resets the running count to zero
and releases three of the four synchronization resources - the admission
gate (sem), the running-count lock (nrunning_mutex) and the zero-reached
signal (idle_condition) - but not the pending-collection lock
(func_mutex), which is left exactly as it was. -/
theorem c7_end_releases_all_but_func_mutex (env : OSEnv) (s : AgoState)
    (h : (alib_thread_end env s).1 = 0) :
    (alib_thread_end env s).2.nrunning = 0 ∧
    (alib_thread_end env s).2.sem_valid = false ∧
    (alib_thread_end env s).2.nrunning_mutex_valid = false ∧
    (alib_thread_end env s).2.cond_valid = false ∧
    (alib_thread_end env s).2.func_mutex_valid = s.func_mutex_valid := by
  rw [alib_thread_end_success env s h]
  simp

/-- Witness for C7 as amended, at the state left by Initialize(2). -/
theorem c7_end_releases_all_but_func_mutex_witness :
    (alib_thread_end envOk (alib_thread_init envOk 2 initialState).2).2.nrunning
      = 0 ∧
    (alib_thread_end envOk
        (alib_thread_init envOk 2 initialState).2).2.sem_valid = false ∧
    (alib_thread_end envOk
        (alib_thread_init envOk 2 initialState).2).2.nrunning_mutex_valid
      = false ∧
    (alib_thread_end envOk
        (alib_thread_init envOk 2 initialState).2).2.cond_valid = false ∧
    (alib_thread_end envOk
        (alib_thread_init envOk 2 initialState).2).2.func_mutex_valid =
      (alib_thread_init envOk 2 initialState).2.func_mutex_valid :=
  c7_end_releases_all_but_func_mutex envOk
    (alib_thread_init envOk 2 initialState).2 (by decide)

/-- C8: alib_thread_init performs no upper-bound check on max_conc.  For
every max_conc greater than MAX_THREADS = 1024 (in the environment where
every OS call succeeds), initialization from the pristine state still
reports success, and its creation loop stores a thread handle into a cell
of thread_list whose index is at least MAX_THREADS - past the end of the
1024-cell C array pthread_t thread_list[MAX_THREADS] (ago.c line 49), an
out-of-bounds write.  The spec precondition max_conc at most MAX is not
enforced anywhere in ago.c lines 122-161. -/
theorem c8_no_upper_bound_check_oob_write (m : Int) (h : MAX_THREADS < m) :
    (alib_thread_init envOk m initialState).1 = 0 ∧
    ∃ i : Nat, MAX_THREADS ≤ (i : Int) ∧
      (alib_thread_init envOk m initialState).2.thread_list i ≠
        initialState.thread_list i := by
  have hm : (1024 : Int) < m := h
  constructor
  · rw [alib_thread_init_envOk_eq]
  · refine ⟨1024, by norm_num [MAX_THREADS], ?_⟩
    rw [alib_thread_init_envOk_eq]
    have hw : (initLoop envOk m.toNat 0 preLoopState).2.thread_list 1024 =
        envOk.newThread 1024 :=
      initLoop_ok_thread_list envOk (fun _ => rfl) m.toNat 0 preLoopState 1024
        (by omega) (by omega)
    rw [hw]
    decide

/-- Witness for C8 at max_conc = 1025. -/
theorem c8_no_upper_bound_check_oob_write_witness :
    (alib_thread_init envOk 1025 initialState).1 = 0 ∧
    ∃ i : Nat, MAX_THREADS ≤ (i : Int) ∧
      (alib_thread_init envOk 1025 initialState).2.thread_list i ≠
        initialState.thread_list i :=
  c8_no_upper_bound_check_oob_write 1025 (by decide)

/-- C9: alib_thread_init with max_conc = 0 runs its creation loop zero
times, leaves nthreads = 0 and returns 0, the success indication; the
resulting pool behaves as uninitialized - every subsequent alib_go, in
any environment and for any task, fails at once with the NotInitialized
error code 1 (ago.c line 212). -/
theorem c9_init_zero_reports_success_go_fails (env2 : OSEnv) (f a : Nat) :
    (alib_thread_init envOk 0 initialState).1 = 0 ∧
    (alib_thread_init envOk 0 initialState).2.nthreads = 0 ∧
    (alib_go env2 f a (alib_thread_init envOk 0 initialState).2).1 = 1 := by
  have he : alib_thread_init envOk 0 initialState = (0, preLoopState) :=
    alib_thread_init_envOk_eq 0
  refine ⟨by rw [he], by rw [he]; rfl, ?_⟩
  rw [he]
  simp [alib_go, preLoopState, initialState]

/-- C10: a successful alib_go changes exactly the four things the claim
lists, and nothing else: the pending slot at the previous top index
(func_list and arg_list at index nfuncs get the submitted entry point and
context), the pending count nfuncs (plus one), the running count nrunning
(plus one), and the admission gate sem (posted exactly once, plus one).
All remaining state, in particular thread_list, nthreads,
alib_thread_quit, every other cell of func_list and arg_list (by the
pointwise semantics of Function.update) and the four resource flags, is
returned unchanged. -/
theorem c10_go_success_frame (env : OSEnv) (f a : Nat) (s : AgoState)
    (h : (alib_go env f a s).1 = 0) :
    (alib_go env f a s).2 =
      { s with
          func_list := Function.update s.func_list s.nfuncs.toNat f,
          arg_list := Function.update s.arg_list s.nfuncs.toNat a,
          nfuncs := s.nfuncs + 1,
          nrunning := s.nrunning + 1,
          sem := s.sem + 1 } := by
  by_cases h1 : s.nthreads = 0
  · simp [alib_go, h1] at h
  · by_cases h2 : s.nfuncs = MAX_THREADS
    · simp [alib_go, h1, h2] at h
    · by_cases h3 : env.sem_post_ok
      · simp [alib_go, h1, h2, h3]
      · simp [alib_go, h1, h2, h3] at h

/-- Witness for C10: the frame condition evaluated at the state left by
Initialize(1). -/
theorem c10_go_success_frame_witness :
    (alib_go envOk 5 6 (alib_thread_init envOk 1 initialState).2).2 =
      { (alib_thread_init envOk 1 initialState).2 with
          func_list := Function.update
            (alib_thread_init envOk 1 initialState).2.func_list
            (alib_thread_init envOk 1 initialState).2.nfuncs.toNat 5,
          arg_list := Function.update
            (alib_thread_init envOk 1 initialState).2.arg_list
            (alib_thread_init envOk 1 initialState).2.nfuncs.toNat 6,
          nfuncs := (alib_thread_init envOk 1 initialState).2.nfuncs + 1,
          nrunning := (alib_thread_init envOk 1 initialState).2.nrunning + 1,
          sem := (alib_thread_init envOk 1 initialState).2.sem + 1 } :=
  c10_go_success_frame envOk 5 6
    (alib_thread_init envOk 1 initialState).2 (by decide)
